import Mathlib

/-!
Shallow embedding of `src/heci_example/heci_example.c` (an Intel MEI/HECI
example client) and verification of its session-protocol properties.

The embedding follows the C source line by line:
* `struct mei` becomes `Mei`; `struct mkhi_host_if` becomes `MkhiHostIf`.
* The outside world (kernel driver, device node) is an oracle: `Device`
  fixes what `open`, `geteuid` and the connect ioctl report during one
  `mei_init` call; `SendDevice` and `RecvDevice` fix what `write`,
  `select` and `read` report on a valid descriptor.
* Each operation also returns the list of system calls it performed
  (`Syscall`) so that resource-release and I/O-attempt properties can be
  stated, and the `mei_err` diagnostic it printed (`ErrMsg`), which is the
  only way the C code distinguishes its failure modes to an observer.
* The POSIX layer is modelled where the C code relies on it: `write` and
  `read` on a negative descriptor fail with `EBADF` before reaching any
  device.
* `exit(-1)` in `mei_init` is modelled by the `exited` field of the
  outcome: when it is `some code` the process terminated inside the call
  and the `ok` return value never reached the caller.
* The verbose-gated `mei_msg` logging, which has no effect on state or
  results, is not modelled.
-/

set_option linter.unusedVariables false

namespace Heci

/-- System calls the example performs, recorded in order. -/
inductive Syscall where
  | sysOpen
  | sysClose (fd : Int)
  | sysIoctl (fd : Int)
  | sysWrite (fd : Int)
  | sysSelect (nfds : Int)
  | sysRead (fd : Int)
deriving DecidableEq, Repr

/-- The distinct `mei_err` diagnostics printed by the C source, one
constructor per call site. -/
inductive ErrMsg where
  | cannotEstablishHandle
  | runWithRootPrivilege
  | connectClientErr (code : Int)
  | protocolVersionNotSupported
  | writeFailedStatus (status : Int)
  | writeFailedOnTimeout
  | writeFailedOnSelect (status : Int)
  | readFailedStatus (status : Int)
deriving DecidableEq, Repr

/-- `struct mei`: info on a mei client connection. `guid` is the 16-byte
little-endian UUID, `fd` the device descriptor (-1 when closed). -/
structure Mei where
  guid : List Nat
  initialized : Bool
  verbose : Bool
  buf_size : Nat
  prot_ver : Nat
  fd : Int
deriving DecidableEq, Repr

/-- `mei_deinit`: close the descriptor when it is not -1, then reset
`fd`, `buf_size`, `prot_ver` and `initialized`. Returns the new state and
the system calls performed. -/
def mei_deinit (cl : Mei) : Mei × List Syscall :=
  ({ cl with fd := -1, buf_size := 0, prot_ver := 0, initialized := false },
   if cl.fd ≠ -1 then [Syscall.sysClose cl.fd] else [])

/-- `struct mei_client`: the connect-response body the driver returns
through `IOCTL_MEI_CONNECT_CLIENT`. -/
structure MeiClientProps where
  max_msg_length : Nat
  protocol_version : Nat
deriving DecidableEq, Repr

/-- Oracle for one `mei_init` call: what `open("/dev/mei0")`, `geteuid()`
and the connect ioctl report. -/
structure Device where
  openResult : Int
  euid : Nat
  ioctlResult : Int
  props : MeiClientProps
deriving DecidableEq, Repr

/-- Outcome of `mei_init`. When `exited = some code` the process
terminated inside the call via `exit(code)` and `ok` is meaningless. -/
structure InitOutcome where
  exited : Option Int
  ok : Bool
  st : Mei
  calls : List Syscall
  msg : Option ErrMsg
deriving DecidableEq, Repr

/-- `mei_init`: set `verbose`, open the device node; on open failure print
a privilege-dependent diagnostic and `exit(-1)` (the non-root branch also
runs `mei_deinit` first); otherwise record the guid, mark the session
initialized, issue the connect ioctl, apply the protocol-version gate, and
on any post-open failure run `mei_deinit` and return false. -/
def mei_init (me : Mei) (guid : List Nat) (req_protocol_version : Nat)
    (verbose : Bool) (dev : Device) : InitOutcome :=
  let me := { me with verbose := verbose, fd := dev.openResult }
  if me.fd = -1 then
    if dev.euid = 0 then
      { exited := some (-1), ok := false, st := me, calls := [Syscall.sysOpen],
        msg := some ErrMsg.cannotEstablishHandle }
    else
      let r := mei_deinit me
      { exited := some (-1), ok := false, st := r.1,
        calls := Syscall.sysOpen :: r.2,
        msg := some ErrMsg.runWithRootPrivilege }
  else
    let me := { me with guid := guid, initialized := true }
    if dev.ioctlResult ≠ 0 then
      let r := mei_deinit me
      { exited := none, ok := false, st := r.1,
        calls := Syscall.sysOpen :: Syscall.sysIoctl me.fd :: r.2,
        msg := some (ErrMsg.connectClientErr dev.ioctlResult) }
    else
      let cl := dev.props
      if req_protocol_version > 0 ∧ cl.protocol_version ≠ req_protocol_version then
        let r := mei_deinit me
        { exited := none, ok := false, st := r.1,
          calls := Syscall.sysOpen :: Syscall.sysIoctl me.fd :: r.2,
          msg := some ErrMsg.protocolVersionNotSupported }
      else
        { exited := none, ok := true,
          st := { me with buf_size := cl.max_msg_length,
                          prot_ver := cl.protocol_version },
          calls := [Syscall.sysOpen, Syscall.sysIoctl me.fd],
          msg := none }

/-- `struct timeval` with the nonnegative values this program produces. -/
structure Timeval where
  tv_sec : Nat
  tv_usec : Nat
deriving DecidableEq, Repr

/-- The timeval `mei_send_msg` builds from its millisecond timeout:
`tv_sec = timeout / 1000`, `tv_usec = (timeout % 1000) * 1000000`,
exactly as in the source. -/
def mei_send_tv (timeout : Nat) : Timeval :=
  { tv_sec := timeout / 1000, tv_usec := (timeout % 1000) * 1000000 }

/-- POSIX errno for an invalid file descriptor. -/
def EBADF : Nat := 9

/-- Oracle for one `mei_send_msg` call on a valid descriptor: the result
of `write`, the errno it set on failure, and the result of `select`
together with whether the descriptor is in the ready set afterwards. -/
structure SendDevice where
  writeResult : Int
  writeErrno : Nat
  selectResult : Int
  fdIsSet : Bool
deriving DecidableEq, Repr

/-- POSIX layer for `write`: a negative descriptor fails with `EBADF`
before reaching any device; otherwise the device oracle answers. Returns
the write result and the observed errno. -/
def sys_write (fd : Int) (dev : SendDevice) : Int × Nat :=
  if fd < 0 then (-1, EBADF) else (dev.writeResult, dev.writeErrno)

/-- `select` on the read-set containing `fd`, bounded by `tv`: the device
oracle answers with the select result and the ready flag. -/
def sys_select (fd : Int) (tv : Timeval) (dev : SendDevice) : Int × Bool :=
  (dev.selectResult, dev.fdIsSet)

/-- Outcome of `mei_send_msg`: return code, final session state, system
calls performed, diagnostic printed. -/
structure SendOutcome where
  rc : Int
  st : Mei
  calls : List Syscall
  msg : Option ErrMsg
deriving DecidableEq, Repr

/-- `mei_send_msg`: build the timeval, write the buffer; on a negative
write set `rc = -errno`; otherwise select on the descriptor with the
timeval; on ready report success and set `rc = written`; on `rc = 0`
print the timeout diagnostic and fall to `out`; on any other select
result print the select diagnostic and fall to `out`. At the `out` label
run `mei_deinit` when and only when `rc < 0`, then return `rc`. -/
def mei_send_msg (me : Mei) (len : Int) (timeout : Nat) (dev : SendDevice) :
    SendOutcome :=
  let tv := mei_send_tv timeout
  let w := sys_write me.fd dev
  let written := w.1
  if written < 0 then
    let rc : Int := -(w.2 : Int)
    if rc < 0 then
      let r := mei_deinit me
      { rc := rc, st := r.1, calls := Syscall.sysWrite me.fd :: r.2,
        msg := some (ErrMsg.writeFailedStatus written) }
    else
      { rc := rc, st := me, calls := [Syscall.sysWrite me.fd],
        msg := some (ErrMsg.writeFailedStatus written) }
  else
    let s := sys_select me.fd tv dev
    let rc := s.1
    if rc > 0 ∧ s.2 then
      { rc := written, st := me,
        calls := [Syscall.sysWrite me.fd, Syscall.sysSelect (me.fd + 1)],
        msg := none }
    else if rc = 0 then
      { rc := 0, st := me,
        calls := [Syscall.sysWrite me.fd, Syscall.sysSelect (me.fd + 1)],
        msg := some ErrMsg.writeFailedOnTimeout }
    else
      if rc < 0 then
        let r := mei_deinit me
        { rc := rc, st := r.1,
          calls := Syscall.sysWrite me.fd :: Syscall.sysSelect (me.fd + 1) :: r.2,
          msg := some (ErrMsg.writeFailedOnSelect rc) }
      else
        { rc := rc, st := me,
          calls := [Syscall.sysWrite me.fd, Syscall.sysSelect (me.fd + 1)],
          msg := some (ErrMsg.writeFailedOnSelect rc) }

/-- Oracle for one `mei_recv_msg` call on a valid descriptor: the result
of `read` and the bytes it places in the buffer. -/
structure RecvDevice where
  readResult : Int
  readData : List Nat
deriving DecidableEq, Repr

/-- POSIX layer for `read`: a negative descriptor fails (result -1,
errno `EBADF`) before reaching any device; otherwise the device oracle
answers. -/
def sys_read (fd : Int) (dev : RecvDevice) : Int :=
  if fd < 0 then -1 else dev.readResult

/-- Outcome of `mei_recv_msg`: return code, final session state, the
caller buffer after the call, system calls performed, diagnostic
printed. -/
structure RecvOutcome where
  rc : Int
  st : Mei
  buf : List Nat
  calls : List Syscall
  msg : Option ErrMsg
deriving DecidableEq, Repr

/-- `mei_recv_msg`: read into the buffer; on a negative result print the
read diagnostic and run `mei_deinit`; on success the first `rc` bytes of
the buffer hold the device data. The `timeout` argument is accepted but
never used, exactly as in the source. -/
def mei_recv_msg (me : Mei) (buffer : List Nat) (len : Int) (timeout : Nat)
    (dev : RecvDevice) : RecvOutcome :=
  let rc := sys_read me.fd dev
  if rc < 0 then
    let r := mei_deinit me
    { rc := rc, st := r.1, buf := buffer,
      calls := Syscall.sysRead me.fd :: r.2,
      msg := some (ErrMsg.readFailedStatus rc) }
  else
    { rc := rc, st := me,
      buf := dev.readData.take rc.toNat ++ buffer.drop rc.toNat,
      calls := [Syscall.sysRead me.fd], msg := none }

/-- The `MEI_MKHI_HIF_FIX` UUID from the source,
`UUID_LE(0x55213584, 0x9a29, 0x4916, 0xba, 0xdf, 0xf, 0xb7, 0xed, 0x68,
0x2a, 0xeb)`, laid out in little-endian byte order. -/
def MEI_MKHI_HIF_FIX_GUID : List Nat :=
  [0x84, 0x35, 0x21, 0x55, 0x29, 0x9a, 0x16, 0x49,
   0xba, 0xdf, 0x0f, 0xb7, 0xed, 0x68, 0x2a, 0xeb]

/-- `struct mkhi_host_if`: info on an MKHI connection. -/
structure MkhiHostIf where
  mei_cl : Mei
  send_timeout : Nat
  initialized : Bool
deriving DecidableEq, Repr

/-- `mkhi_host_if_fix_init`: store `send_timeout` when nonzero, else the
default 20000; run `mei_init` with the MKHI fixed-interface UUID and a
requested protocol version of 0; store and return its result. -/
def mkhi_host_if_fix_init (acmd : MkhiHostIf) (send_timeout : Nat)
    (verbose : Bool) (dev : Device) : MkhiHostIf × InitOutcome :=
  let st := if send_timeout ≠ 0 then send_timeout else 20000
  let o := mei_init acmd.mei_cl MEI_MKHI_HIF_FIX_GUID 0 verbose dev
  ({ mei_cl := o.st, send_timeout := st, initialized := o.ok }, o)

/-- Number of `close` system calls in a trace. -/
def closeCount (calls : List Syscall) : Nat :=
  (calls.filter (fun c => match c with
    | Syscall.sysClose _ => true
    | _ => false)).length

/-- Invariant I1 relative to the connect oracle `dev`: an initialized
session has a valid descriptor and carries exactly the negotiated
parameters the driver returned. -/
def SessionInv (dev : Device) (st : Mei) : Prop :=
  st.initialized = true →
    st.fd ≠ -1 ∧ st.buf_size = dev.props.max_msg_length ∧
      st.prot_ver = dev.props.protocol_version

/-- A session state with a valid descriptor, used by concrete scenarios. -/
def readySession : Mei :=
  { guid := MEI_MKHI_HIF_FIX_GUID, initialized := true, verbose := false,
    buf_size := 512, prot_ver := 1, fd := 3 }

/-- A fresh or torn-down session state, used by concrete scenarios. -/
def closedSession : Mei :=
  { guid := [], initialized := false, verbose := false,
    buf_size := 0, prot_ver := 0, fd := -1 }

/-- Claim C4: close is idempotent. For every session state, deinit
applied twice yields the same state as deinit applied once, the second
deinit performs no close system call, and one deinit leaves the stored
descriptor at -1. -/
theorem mei_deinit_idempotent (cl : Heci.Mei) :
    (Heci.mei_deinit (Heci.mei_deinit cl).1).1 = (Heci.mei_deinit cl).1 ∧
    (Heci.mei_deinit (Heci.mei_deinit cl).1).2 = [] ∧
    (Heci.mei_deinit cl).1.fd = -1 := by
  simp [Heci.mei_deinit]

/-- Claim C6: the receive operation is completely independent of the
caller-supplied deadline argument. Two calls differing only in
`timeout` produce identical outcomes (result, state, buffer, calls,
diagnostic). -/
theorem mei_recv_deadline_independent (me : Heci.Mei) (buffer : List Nat)
    (len : Int) (t1 t2 : Nat) (dev : Heci.RecvDevice) :
    Heci.mei_recv_msg me buffer len t1 dev =
      Heci.mei_recv_msg me buffer len t2 dev := rfl

/-- Claim C7 (code bug, failing input 1500): the timeval handed to
select is NOT bounded by deadline_ms as claimed. The source computes
`tv_usec = (timeout % 1000) * 1000000` instead of `* 1000`, so for
deadline_ms = 1500 it produces tv_usec = 500000000, which violates
`tv_usec < 1000000` and makes `tv_sec * 1000 + tv_usec / 1000` equal to
501000, not 1500. -/
theorem mei_send_tv_microsecond_overflow :
    (Heci.mei_send_tv 1500).tv_sec = 1 ∧
    (Heci.mei_send_tv 1500).tv_usec = 500000000 ∧
    ¬ ((Heci.mei_send_tv 1500).tv_usec < 1000000) ∧
    (Heci.mei_send_tv 1500).tv_sec * 1000 +
      (Heci.mei_send_tv 1500).tv_usec / 1000 = 501000 := by
  decide

/-- Claim C1 (code bug, P6 scenario): with an initialized session whose
write succeeds (5 bytes) but whose readiness-wait reports no event at
deadline_ms = 5000, `mei_send_msg` returns 0 and the session REMAINS
initialized with its descriptor open and no close performed — the
`out:` cleanup runs only for `rc < 0` and the timeout path carries
`rc = 0`, so the claimed teardown to Uninitialized does not happen. -/
theorem mei_send_timeout_keeps_session :
    (Heci.mei_send_msg Heci.readySession 5 5000
        { writeResult := 5, writeErrno := 0,
          selectResult := 0, fdIsSet := false }).rc = 0 ∧
    (Heci.mei_send_msg Heci.readySession 5 5000
        { writeResult := 5, writeErrno := 0,
          selectResult := 0, fdIsSet := false }).st.initialized = true ∧
    (Heci.mei_send_msg Heci.readySession 5 5000
        { writeResult := 5, writeErrno := 0,
          selectResult := 0, fdIsSet := false }).st.fd = 3 ∧
    Heci.closeCount (Heci.mei_send_msg Heci.readySession 5 5000
        { writeResult := 5, writeErrno := 0,
          selectResult := 0, fdIsSet := false }).calls = 0 ∧
    (Heci.mei_send_msg Heci.readySession 5 5000
        { writeResult := 5, writeErrno := 0,
          selectResult := 0, fdIsSet := false }).msg =
      some Heci.ErrMsg.writeFailedOnTimeout := by
  decide

/-- Claim C3 counterexample: on an uninitialized (torn-down) session the
send path DOES attempt the underlying write on descriptor -1 (and the
result is -EBADF = -9, not a NotInitialized refusal), refuting the claim
that the I/O is never attempted. -/
theorem mei_send_uninit_attempts_write :
    Heci.Syscall.sysWrite (-1) ∈
      (Heci.mei_send_msg Heci.closedSession 5 5000
        { writeResult := 0, writeErrno := 0,
          selectResult := 1, fdIsSet := true }).calls ∧
    (Heci.mei_send_msg Heci.closedSession 5 5000
        { writeResult := 0, writeErrno := 0,
          selectResult := 1, fdIsSet := true }).rc = -9 ∧
    Heci.Syscall.sysRead (-1) ∈
      (Heci.mei_recv_msg Heci.closedSession [] 16 5000
        { readResult := 0, readData := [] }).calls := by
  decide

/-- Claim C9 counterexample: with a failed device open and a
non-privileged caller (euid = 1000), `mei_init` terminates the process
via `exit(-1)` instead of reporting an error result to the caller; the
privilege diagnostic is printed but no value is ever returned. -/
theorem mei_init_open_failure_exits_process :
    (Heci.mei_init Heci.closedSession Heci.MEI_MKHI_HIF_FIX_GUID 0 false
        { openResult := -1, euid := 1000, ioctlResult := 0,
          props := { max_msg_length := 512, protocol_version := 1 } }).exited
      = some (-1) ∧
    (Heci.mei_init Heci.closedSession Heci.MEI_MKHI_HIF_FIX_GUID 0 false
        { openResult := -1, euid := 1000, ioctlResult := 0,
          props := { max_msg_length := 512, protocol_version := 1 } }).msg
      = some Heci.ErrMsg.runWithRootPrivilege := by
  decide

/-- A driver oracle that opens descriptor 3 and connects successfully
with max_msg_length 512 and protocol_version 1. -/
def okDevice : Device :=
  { openResult := 3, euid := 0, ioctlResult := 0,
    props := { max_msg_length := 512, protocol_version := 1 } }

/-- A driver oracle whose connect succeeds but negotiates
protocol_version 2. -/
def mismatchDevice : Device :=
  { openResult := 3, euid := 0, ioctlResult := 0,
    props := { max_msg_length := 512, protocol_version := 2 } }

/-- Claim C2: the protocol-negotiation gate. With a successful open:
a positive requested version that differs from the negotiated one makes
connect return false with the protocol-mismatch diagnostic, the session
uninitialized and the handle closed exactly once; a requested version of
0 accepts any negotiated version; and every returning failure closes the
handle exactly once and resets the session. -/
theorem mei_init_negotiation_gate (me : Heci.Mei) (guid : List Nat)
    (req : Nat) (verbose : Bool) (dev : Heci.Device)
    (hopen : dev.openResult ≠ -1) :
    (dev.ioctlResult = 0 → req > 0 → dev.props.protocol_version ≠ req →
       (Heci.mei_init me guid req verbose dev).ok = false ∧
       (Heci.mei_init me guid req verbose dev).msg =
         some Heci.ErrMsg.protocolVersionNotSupported ∧
       (Heci.mei_init me guid req verbose dev).exited = none ∧
       (Heci.mei_init me guid req verbose dev).st.initialized = false ∧
       (Heci.mei_init me guid req verbose dev).st.fd = -1 ∧
       Heci.closeCount (Heci.mei_init me guid req verbose dev).calls = 1) ∧
    (dev.ioctlResult = 0 → req = 0 →
       (Heci.mei_init me guid req verbose dev).ok = true ∧
       (Heci.mei_init me guid req verbose dev).exited = none) ∧
    ((Heci.mei_init me guid req verbose dev).ok = false →
       (Heci.mei_init me guid req verbose dev).exited = none ∧
       (Heci.mei_init me guid req verbose dev).st.initialized = false ∧
       (Heci.mei_init me guid req verbose dev).st.fd = -1 ∧
       Heci.closeCount (Heci.mei_init me guid req verbose dev).calls = 1) := by
  refine ⟨fun hio hpos hne => ?_, fun hio hz => ?_, fun hok => ?_⟩
  · simp [Heci.mei_init, Heci.mei_deinit, Heci.closeCount, hopen, hio,
      hpos, hne]
  · simp [Heci.mei_init, hopen, hio, hz]
  · by_cases hio : dev.ioctlResult = 0
    · by_cases hm : req > 0 ∧ dev.props.protocol_version ≠ req
      · simp [Heci.mei_init, Heci.mei_deinit, Heci.closeCount, hopen, hio,
          hm]
      · exfalso
        simp [Heci.mei_init, hopen, hio, hm] at hok
    · simp [Heci.mei_init, Heci.mei_deinit, Heci.closeCount, hopen, hio]

/-- Witness for C2: a concrete mismatching connect (requested version 1,
negotiated 2) returns false, leaves the session uninitialized and closes
the handle exactly once. -/
theorem mei_init_negotiation_gate_witness :
    (Heci.mei_init Heci.closedSession [] 1 false Heci.mismatchDevice).ok
      = false ∧
    (Heci.mei_init Heci.closedSession [] 1 false
      Heci.mismatchDevice).st.initialized = false ∧
    Heci.closeCount (Heci.mei_init Heci.closedSession [] 1 false
      Heci.mismatchDevice).calls = 1 := by
  obtain ⟨h1, h2, h3⟩ := Heci.mei_init_negotiation_gate Heci.closedSession
    [] 1 false Heci.mismatchDevice (by decide)
  obtain ⟨a, b, c, d, e, f⟩ := h1 (by decide) (by decide) (by decide)
  exact ⟨a, d, f⟩

/-- Claim C3 amended: on an uninitialized (fresh or torn-down) session,
send and receive perform no initialization check; they attempt the
underlying I/O on descriptor -1, which the OS rejects with EBADF, so
send returns -9 (a write failure) and receive returns -1 (a read
failure), never a NotInitialized refusal, and the session ends
uninitialized with no close performed. -/
theorem mei_xfer_uninit_ebadf (st : Heci.Mei) (h1 : st.initialized = false)
    (h2 : st.fd = -1) :
    (∀ len t sdev,
        Heci.Syscall.sysWrite (-1) ∈ (Heci.mei_send_msg st len t sdev).calls ∧
        (Heci.mei_send_msg st len t sdev).rc = -9 ∧
        (Heci.mei_send_msg st len t sdev).st.initialized = false ∧
        (Heci.mei_send_msg st len t sdev).st.fd = -1 ∧
        Heci.closeCount (Heci.mei_send_msg st len t sdev).calls = 0) ∧
    (∀ buffer len t rdev,
        Heci.Syscall.sysRead (-1) ∈
          (Heci.mei_recv_msg st buffer len t rdev).calls ∧
        (Heci.mei_recv_msg st buffer len t rdev).rc = -1 ∧
        (Heci.mei_recv_msg st buffer len t rdev).st.initialized = false ∧
        (Heci.mei_recv_msg st buffer len t rdev).st.fd = -1 ∧
        Heci.closeCount (Heci.mei_recv_msg st buffer len t rdev).calls = 0) := by
  constructor
  · intro len t sdev
    simp [Heci.mei_send_msg, Heci.sys_write, Heci.EBADF, Heci.mei_deinit,
      Heci.closeCount, h2]
  · intro buffer len t rdev
    simp [Heci.mei_recv_msg, Heci.sys_read, Heci.mei_deinit,
      Heci.closeCount, h2]

/-- Witness for the amended C3: on the concrete torn-down session, send
returns -9 and receive returns -1. -/
theorem mei_xfer_uninit_ebadf_witness :
    (Heci.mei_send_msg Heci.closedSession 5 5000
      { writeResult := 0, writeErrno := 0,
        selectResult := 1, fdIsSet := true }).rc = -9 ∧
    (Heci.mei_recv_msg Heci.closedSession [] 16 5000
      { readResult := 0, readData := [] }).rc = -1 := by
  obtain ⟨hs, hr⟩ := Heci.mei_xfer_uninit_ebadf Heci.closedSession
    (by decide) (by decide)
  exact ⟨(hs 5 5000 _).2.1, (hr [] 16 5000 _).2.1⟩

/-- Claim C5: invariant I1 relative to a fixed connect oracle. A connect
that returns (does not exit the process) establishes the invariant, and
deinit, send and receive each preserve it. -/
theorem mei_session_invariant (dev : Heci.Device) :
    (∀ me guid req verbose,
        (Heci.mei_init me guid req verbose dev).exited = none →
        Heci.SessionInv dev (Heci.mei_init me guid req verbose dev).st) ∧
    (∀ me, Heci.SessionInv dev (Heci.mei_deinit me).1) ∧
    (∀ me len t sdev, Heci.SessionInv dev me →
        Heci.SessionInv dev (Heci.mei_send_msg me len t sdev).st) ∧
    (∀ me buffer len t rdev, Heci.SessionInv dev me →
        Heci.SessionInv dev (Heci.mei_recv_msg me buffer len t rdev).st) := by
  refine ⟨fun me guid req verbose hex => ?_, fun me => ?_,
    fun me len t sdev h => ?_, fun me buffer len t rdev h => ?_⟩
  · by_cases hopen : dev.openResult = -1
    · exfalso
      by_cases he : dev.euid = 0 <;>
        simp [Heci.mei_init, Heci.mei_deinit, hopen, he] at hex
    · by_cases hio : dev.ioctlResult = 0
      · by_cases hm : req > 0 ∧ dev.props.protocol_version ≠ req
        · simp [Heci.mei_init, Heci.mei_deinit, Heci.SessionInv, hopen,
            hio, hm]
        · simp [Heci.mei_init, Heci.SessionInv, hopen, hio, hm]
      · simp [Heci.mei_init, Heci.mei_deinit, Heci.SessionInv, hopen, hio]
  · simp [Heci.mei_deinit, Heci.SessionInv]
  · simp only [Heci.mei_send_msg, Heci.sys_write, Heci.sys_select]
    repeat' split
    all_goals first
      | exact h
      | simp [Heci.mei_deinit, Heci.SessionInv]
  · simp only [Heci.mei_recv_msg, Heci.sys_read]
    repeat' split
    all_goals first
      | exact h
      | simp [Heci.mei_deinit, Heci.SessionInv]

/-- Witness for C5: a concrete successful connect establishes the
invariant, and a concrete successful send preserves it. -/
theorem mei_session_invariant_witness :
    Heci.SessionInv Heci.okDevice
      (Heci.mei_init Heci.closedSession [] 0 false Heci.okDevice).st ∧
    Heci.SessionInv Heci.okDevice
      (Heci.mei_send_msg Heci.readySession 5 5000
        { writeResult := 5, writeErrno := 0,
          selectResult := 1, fdIsSet := true }).st := by
  have h := Heci.mei_session_invariant Heci.okDevice
  exact ⟨h.1 Heci.closedSession [] 0 false (by decide),
    h.2.2.1 Heci.readySession 5 5000 _ (by intro hi; decide)⟩

/-- Claim C8: success paths return the byte count from the underlying
I/O. For an initialized session with a valid descriptor: when the write
succeeds and the readiness wait reports the descriptor ready, send
returns exactly the write result and leaves the state unchanged; when
the read succeeds, receive returns exactly the read result and leaves
the state unchanged. -/
theorem mei_xfer_success_byte_counts :
    (∀ me len t (sdev : Heci.SendDevice), Heci.Mei.initialized me = true →
        0 ≤ Heci.Mei.fd me → 0 ≤ sdev.writeResult →
        0 < sdev.selectResult → sdev.fdIsSet = true →
        (Heci.mei_send_msg me len t sdev).rc = sdev.writeResult ∧
        (Heci.mei_send_msg me len t sdev).st = me) ∧
    (∀ me buffer len t (rdev : Heci.RecvDevice),
        Heci.Mei.initialized me = true → 0 ≤ Heci.Mei.fd me →
        0 ≤ rdev.readResult →
        (Heci.mei_recv_msg me buffer len t rdev).rc = rdev.readResult ∧
        (Heci.mei_recv_msg me buffer len t rdev).st = me) := by
  constructor
  · intro me len t sdev hinit hfd hw hs hset
    have h1 : ¬ Heci.Mei.fd me < 0 := not_lt.mpr hfd
    have h2 : ¬ sdev.writeResult < 0 := not_lt.mpr hw
    simp [Heci.mei_send_msg, Heci.sys_write, Heci.sys_select, h1, h2,
      hs, hset]
  · intro me buffer len t rdev hinit hfd hr
    have h1 : ¬ Heci.Mei.fd me < 0 := not_lt.mpr hfd
    have h2 : ¬ rdev.readResult < 0 := not_lt.mpr hr
    simp [Heci.mei_recv_msg, Heci.sys_read, h1, h2]

/-- Witness for C8: a concrete round trip in the style of P5 — a 5-byte
write confirmed ready returns 5, and a 16-byte read into a 32-byte
buffer returns 16, strictly less than the capacity. -/
theorem mei_xfer_success_byte_counts_witness :
    (Heci.mei_send_msg Heci.readySession 5 5000
      { writeResult := 5, writeErrno := 0,
        selectResult := 1, fdIsSet := true }).rc = 5 ∧
    (Heci.mei_recv_msg Heci.readySession (List.replicate 32 0) 32 5000
      { readResult := 16, readData := List.replicate 16 7 }).rc = 16 ∧
    (16 : Int) < 32 := by
  obtain ⟨hs, hr⟩ := Heci.mei_xfer_success_byte_counts
  exact ⟨(hs Heci.readySession 5 5000 _ (by decide) (by decide) (by decide)
      (by decide) (by decide)).1,
    (hr Heci.readySession _ 32 5000 _ (by decide) (by decide)
      (by decide)).1, by decide⟩

/-- Claim C9 amended: on every failed device open, `mei_init` prints a
diagnostic chosen by the effective uid — the generic open-failure report
when euid = 0, the distinct privilege message otherwise (the two are
different values) — but in both cases terminates the process via
`exit(-1)` rather than returning an error result; the non-privileged
branch additionally resets the session before exiting, and no close is
performed (the descriptor is -1). -/
theorem mei_init_open_failure_behavior (me : Heci.Mei) (guid : List Nat)
    (req : Nat) (verbose : Bool) (dev : Heci.Device)
    (h : dev.openResult = -1) :
    (Heci.mei_init me guid req verbose dev).exited = some (-1) ∧
    (Heci.mei_init me guid req verbose dev).msg =
      some (if dev.euid = 0 then Heci.ErrMsg.cannotEstablishHandle
            else Heci.ErrMsg.runWithRootPrivilege) ∧
    Heci.ErrMsg.cannotEstablishHandle ≠ Heci.ErrMsg.runWithRootPrivilege ∧
    (dev.euid ≠ 0 →
      (Heci.mei_init me guid req verbose dev).st.initialized = false ∧
      (Heci.mei_init me guid req verbose dev).st.fd = -1) ∧
    Heci.closeCount (Heci.mei_init me guid req verbose dev).calls = 0 := by
  by_cases he : dev.euid = 0 <;>
    simp [Heci.mei_init, Heci.mei_deinit, Heci.closeCount, h, he]

/-- Witness for the amended C9: a concrete failed open with euid = 0
exits the process with the generic open-failure diagnostic and performs
no close. -/
theorem mei_init_open_failure_behavior_witness :
    (Heci.mei_init Heci.closedSession []
      0 false { openResult := -1, euid := 0, ioctlResult := 0,
                props := { max_msg_length := 512,
                           protocol_version := 1 } }).exited = some (-1) ∧
    Heci.closeCount (Heci.mei_init Heci.closedSession []
      0 false { openResult := -1, euid := 0, ioctlResult := 0,
                props := { max_msg_length := 512,
                           protocol_version := 1 } }).calls = 0 := by
  have h := Heci.mei_init_open_failure_behavior Heci.closedSession []
    0 false { openResult := -1, euid := 0, ioctlResult := 0,
              props := { max_msg_length := 512, protocol_version := 1 } }
    (by decide)
  exact ⟨h.1, h.2.2.2.2⟩

/-- An MKHI host interface state before initialization. -/
def mkhiStart : MkhiHostIf :=
  { mei_cl := closedSession, send_timeout := 0, initialized := false }

/-- Claim C10: the MKHI initializer stores the caller send_timeout
unchanged when it is nonzero and substitutes the default 20000 when it
is zero. -/
theorem mkhi_fix_init_timeout_default (acmd : Heci.MkhiHostIf) (t : Nat)
    (verbose : Bool) (dev : Heci.Device) :
    (t ≠ 0 →
      (Heci.mkhi_host_if_fix_init acmd t verbose dev).1.send_timeout = t) ∧
    (t = 0 →
      (Heci.mkhi_host_if_fix_init acmd t verbose dev).1.send_timeout
        = 20000) := by
  constructor <;> intro h <;> simp [Heci.mkhi_host_if_fix_init, h]

/-- Witness for C10: a caller value of 5000 is stored unchanged and a
caller value of 0 is replaced by 20000. -/
theorem mkhi_fix_init_timeout_default_witness :
    (Heci.mkhi_host_if_fix_init Heci.mkhiStart 5000 true
      Heci.okDevice).1.send_timeout = 5000 ∧
    (Heci.mkhi_host_if_fix_init Heci.mkhiStart 0 true
      Heci.okDevice).1.send_timeout = 20000 := by
  exact ⟨(Heci.mkhi_fix_init_timeout_default Heci.mkhiStart 5000 true
      Heci.okDevice).1 (by decide),
    (Heci.mkhi_fix_init_timeout_default Heci.mkhiStart 0 true
      Heci.okDevice).2 rfl⟩

end Heci
